import Mathlib

/-!
Verification development for the meta-ads-mcp repository.

This file gives a shallow embedding, in Lean 4, of the parts of the
TypeScript sources that the checked properties talk about:

* `AuthManager.getAccountId` and `AuthManager.extractAccountNumber`
  (src/utils/auth.ts);
* the in-memory storage adapter of `SessionManager` and
  `SessionManager.getUserSession` (src/services/session-manager.ts);
* `FacebookOAuthHandler.generateAuthUrl` and
  `FacebookOAuthHandler.handleCallback` (src/lib/shared/oauth-handler.ts);
* `TokenManager.storeToken` / `getToken` / `encrypt` / `decrypt` and
  `MemoryTokenStorage` (src/lib/shared/token manager section of
  meta-context sources);
* `MetaContext.withClient` and its `extractAccessToken`
  (src/lib/shared/meta-context.ts);
* `ToolFactory.registerTool` with its response formatters
  (tool-factory source);
* the `create_campaign` handler of `registerCampaignToolsRefactored`
  (src/tools/create-campaign.ts);
* `BaseApiClient.makeRequest`, `postData` and `deleteResource`
  (base-api-client source), together with a model of the retry and
  error-handling layer that the base client imports.

JavaScript semantics is embedded explicitly: machine numbers become `Nat`
or `Int`, `undefined` becomes `none`, and JavaScript truthiness tests
(`if (x)`, `x || y`, `x ? a : b`) are translated by the `jsTruthy...`
and `jsOr...` functions below, so that falsy values such as `0`, the empty
string and `undefined` behave exactly as in the source.
-/

set_option autoImplicit false

/-! ## JavaScript truthiness primitives -/

/-- Truthiness of an optional JavaScript string: `undefined` and the empty
string are falsy, every other string is truthy. -/
def jsTruthyStr : Option String → Bool
  | none => false
  | some s => s ≠ ""

/-- Truthiness of an optional JavaScript number modelled as a `Nat`:
`undefined` and `0` are falsy. -/
def jsTruthyNat : Option Nat → Bool
  | none => false
  | some n => n ≠ 0

/-- Truthiness of an optional JavaScript number modelled as an `Int`:
`undefined` and `0` are falsy (`NaN`, also falsy, has no model here). -/
def jsTruthyInt : Option Int → Bool
  | none => false
  | some n => n ≠ 0

/-- JavaScript `x || d` for an optional string `x` and a string default:
returns `d` when `x` is absent or empty. -/
def jsOrStr (x : Option String) (d : String) : String :=
  match x with
  | none => d
  | some s => if s = "" then d else s

/-- JavaScript `x || y` over two optional strings, keeping only a truthy
result: the first truthy operand wins, otherwise `none`. -/
def jsOrOptStr (x y : Option String) : Option String :=
  if jsTruthyStr x then x else if jsTruthyStr y then y else none

/-! ## Association-list model of a JavaScript `Map` / plain-object store

JavaScript `Map` keys are unique and insertion-ordered; we model a map as
an association list in which `mapSet` replaces an existing binding in
place and otherwise appends. -/

/-- Lookup in the association-list map (`Map.prototype.get`, or property
read on a plain object used as a dictionary). -/
def mapGet {β : Type} (m : List (String × β)) (k : String) : Option β :=
  match m with
  | [] => none
  | (k', v) :: rest => if k' = k then some v else mapGet rest k

/-- Insertion (`Map.prototype.set`): replaces the binding of `k` if one
exists, otherwise appends a new binding. -/
def mapSet {β : Type} (m : List (String × β)) (k : String) (v : β) :
    List (String × β) :=
  match m with
  | [] => [(k, v)]
  | (k', v') :: rest =>
    if k' = k then (k, v) :: rest else (k', v') :: mapSet rest k v

/-- Deletion (`Map.prototype.delete`). -/
def mapDelete {β : Type} (m : List (String × β)) (k : String) :
    List (String × β) :=
  m.filter (fun p => p.1 ≠ k)

/-! ## AuthManager account-id helpers (src/utils/auth.ts)

`accountIdOrNumber.startsWith("act_")` is the JavaScript string method;
it is translated as a character-list check on the underlying data, and
`accountId.substring(4)` as dropping four characters. -/

/-- JavaScript `s.startsWith(p)`. -/
def jsStartsWith (s p : String) : Bool :=
  p.data.isPrefixOf s.data

/-- JavaScript `s.substring(n)` for a start index only. -/
def jsSubstringFrom (s : String) (n : Nat) : String :=
  String.mk (s.data.drop n)

/-- Translation of `AuthManager.getAccountId` (src/utils/auth.ts, lines
79 to 84): prepend `act_` unless the argument already starts with it. -/
def getAccountId (accountIdOrNumber : String) : String :=
  if jsStartsWith accountIdOrNumber "act_" then accountIdOrNumber
  else "act_" ++ accountIdOrNumber

/-- Translation of `AuthManager.extractAccountNumber` (src/utils/auth.ts,
lines 86 to 91): strip a leading `act_` when present. -/
def extractAccountNumber (accountId : String) : String :=
  if jsStartsWith accountId "act_" then jsSubstringFrom accountId 4
  else accountId

/-! ## SessionManager in-memory storage adapter
(src/services/session-manager.ts, lines 109 to 130)

The adapter keeps a `Map<string, { value, expiry? }>`.  `Date.now()` is
passed explicitly as `now` (milliseconds).  In `set`, the expression
`options?.ex ? Date.now() + options.ex * 1000 : undefined` uses JavaScript
truthiness, so `ex: 0` stores no expiry at all; in `get`, the guard
`item.expiry && Date.now() > item.expiry` likewise treats an absent (or
zero) expiry as "never expires". -/

/-- One entry of the in-memory store: the stored value plus an optional
absolute expiry time in milliseconds. -/
structure MemEntry (α : Type) where
  value : α
  expiry : Option Nat
  deriving Repr, DecidableEq

/-- The in-memory store itself: a JavaScript `Map` from keys to entries. -/
abbrev MemStore (α : Type) : Type := List (String × MemEntry α)

/-- Truthiness of the stored `expiry` field (a JavaScript
`number | undefined`): `undefined` and `0` are falsy. -/
def jsTruthyExpiry : Option Nat → Bool
  | none => false
  | some e => e ≠ 0

/-- Translation of the memory adapter `set` (session-manager.ts lines
113 to 116). -/
def memSet {α : Type} (m : MemStore α) (key : String) (value : α)
    (ex : Option Nat) (now : Nat) : MemStore α :=
  let expiry : Option Nat :=
    if jsTruthyNat ex then some (now + ex.getD 0 * 1000) else none
  mapSet m key { value := value, expiry := expiry }

/-- Translation of the memory adapter `get` (session-manager.ts lines
117 to 125).  Returns the result of the call together with the store
after the call, since an expired entry is deleted by the read. -/
def memGet {α : Type} (m : MemStore α) (key : String) (now : Nat) :
    Option α × MemStore α :=
  match mapGet m key with
  | none => (none, m)
  | some item =>
    if jsTruthyExpiry item.expiry ∧ now > item.expiry.getD 0 then
      (none, mapDelete m key)
    else
      (some item.value, m)

/-- Translation of the memory adapter `del` (session-manager.ts lines
126 to 128). -/
def memDel {α : Type} (m : MemStore α) (key : String) : MemStore α :=
  mapDelete m key

/-! ## SessionManager user sessions
(src/services/session-manager.ts, lines 132 to 202)

`UserSession` is the record built by `createUserSession`; dates become
millisecond timestamps. -/

/-- Business information attached to an ad account
(src/types/session.ts shape used by `createUserSession`). -/
structure BusinessInfo where
  id : String
  name : String
  deriving Repr, DecidableEq

/-- One available ad account of a user session. -/
structure AccountInfo where
  id : String
  name : String
  currency : String
  status : Int
  business : Option BusinessInfo
  deriving Repr, DecidableEq

/-- The session record stored under `session:<sessionId>` by
`SessionManager`. -/
structure UserSession where
  sessionId : String
  userId : String
  email : String
  name : String
  metaUserId : String
  accessToken : String
  refreshToken : Option String
  availableAccounts : List AccountInfo
  createdAt : Nat
  lastUsed : Nat
  selectedAccountId : Option String := none
  deriving Repr, DecidableEq

/-- The number of seconds in the seven-day TTL used by `SessionManager`
(`7 * 24 * 60 * 60` in the source). -/
def sevenDaysSeconds : Nat := 7 * 24 * 60 * 60

/-- Translation of `SessionManager.getUserSession`
(session-manager.ts lines 192 to 202): read the session, and when one is
found update its `lastUsed` and write it back with a fresh seven-day
TTL.  Returns the value returned to the caller and the store after the
call. -/
def getUserSession (store : MemStore UserSession) (sessionId : String)
    (now : Nat) : Option UserSession × MemStore UserSession :=
  match memGet store ("session:" ++ sessionId) now with
  | (none, store1) => (none, store1)
  | (some s, store1) =>
    (some { s with lastUsed := now },
      memSet store1 ("session:" ++ sessionId) { s with lastUsed := now }
        (some sevenDaysSeconds) now)

/-! ## FacebookOAuthHandler (src/lib/shared/oauth-handler.ts)

`generateAuthUrl` stores a freshly generated random state with an
absolute expiry time `Date.now() + 10 * 60 * 1000`; `handleCallback`
validates the `state` query parameter against the store, deletes an
accepted state, and only then exchanges the authorization code.  The
random state and the current time are passed in explicitly; the network
token exchange (`exchangeCodeForToken`, which may throw) is passed in as
an `Except` outcome. -/

/-- The record stored per state by `FacebookOAuthHandler`
(oauth-handler.ts line 16): the user the state was issued for and the
absolute expiry timestamp in milliseconds. -/
structure OAuthStateData where
  userId : String
  timestamp : Nat
  deriving Repr, DecidableEq

/-- The state store (`Map<string, { userId, timestamp }>`). -/
abbrev OAuthStateStore : Type := List (String × OAuthStateData)

/-- Token data returned by the code exchange
(oauth-handler.ts / token-manager `TokenData`). -/
structure OAuthTokenData where
  access_token : String
  token_type : String
  expires_in : Option Nat
  scope : Option String
  user_id : Option String
  created_at : Nat
  deriving Repr, DecidableEq

/-- Query-string join used by `URLSearchParams.toString()`; percent
encoding of the values is performed by the runtime and is not modelled. -/
def queryString (params : List (String × String)) : String :=
  String.intercalate "&" (params.map (fun p => p.1 ++ "=" ++ p.2))

/-- The ten-minute state lifetime of `generateAuthUrl`
(`10 * 60 * 1000` milliseconds in the source). -/
def tenMinutesMs : Nat := 10 * 60 * 1000

/-- Translation of `FacebookOAuthHandler.generateAuthUrl`
(oauth-handler.ts lines 28 to 46).  `state` stands for the value of
`generateSecureState()` (random bytes from the runtime), `now` for
`Date.now()`.  Returns the authorization URL and the state store after
the call. -/
def generateAuthUrl (store : OAuthStateStore) (clientId redirectUri scope : String)
    (userId state : String) (now : Nat) : String × OAuthStateStore :=
  let store' := mapSet store state { userId := userId, timestamp := now + tenMinutesMs }
  let url := "https://www.facebook.com/v23.0/dialog/oauth?" ++
    queryString [("client_id", clientId), ("redirect_uri", redirectUri),
      ("response_type", "code"), ("scope", scope), ("state", state)]
  (url, store')

/-- The query parameters of the OAuth callback request
(`req.query` in `handleCallback`); absent parameters are `none`. -/
structure CallbackQuery where
  code : Option String
  state : Option String
  error : Option String
  error_description : Option String
  deriving Repr, DecidableEq

/-- Where `handleCallback` redirects: the configured success page or the
configured error page with an error message. -/
inductive CallbackRedirect where
  | success : CallbackRedirect
  | errorPage (message : String) : CallbackRedirect
  deriving Repr, DecidableEq

/-- The observable outcome of one `handleCallback` run: the redirect
issued, whether `exchangeCodeForToken` was invoked, and the token stored
by `tokenManager.storeToken` (with the user it was stored for). -/
structure CallbackResult where
  redirect : CallbackRedirect
  exchanged : Bool
  storedToken : Option (String × OAuthTokenData)
  deriving Repr, DecidableEq

/-- Translation of `FacebookOAuthHandler.handleCallback`
(oauth-handler.ts lines 51 to 89).  `now` stands for `Date.now()` and
`exchange` for the outcome of `exchangeCodeForToken(code)` (an
exception message or token data).  Returns the observable outcome and
the state store after the call. -/
def handleCallback (store : OAuthStateStore) (q : CallbackQuery) (now : Nat)
    (exchange : Except String OAuthTokenData) :
    CallbackResult × OAuthStateStore :=
  if jsTruthyStr q.error then
    (⟨.errorPage (jsOrStr q.error_description "OAuth authentication failed"),
      false, none⟩, store)
  else if ¬ jsTruthyStr q.code ∨ ¬ jsTruthyStr q.state then
    (⟨.errorPage "Missing required OAuth parameters", false, none⟩, store)
  else
    let stateVal := (q.state).getD ""
    match mapGet store stateVal with
    | none =>
      (⟨.errorPage "Invalid or expired state parameter", false, none⟩, store)
    | some stateData =>
      if stateData.timestamp < now then
        (⟨.errorPage "Invalid or expired state parameter", false, none⟩, store)
      else
        let store' := mapDelete store stateVal
        match exchange with
        | .error _ =>
          (⟨.errorPage "Authentication failed", true, none⟩, store')
        | .ok tokenData =>
          (⟨.success, true, some (stateData.userId, tokenData)⟩, store')

/-! ## TokenManager (token-manager source next to meta-context.ts)

`encrypt` produces `ivHex + ":" + hexCiphertext` and `decrypt` splits on
`:`, discards the first part and deciphers the rest (joined back with
`:`).  The node `crypto` cipher itself is external; it is passed in as a
pair of functions `cipherEnc` / `cipherDec` (the `createCipher` /
`createDecipher` pair derived from the fixed encryption key), and the
random `iv` hex string as a parameter. -/

/-- JavaScript `s.split(sep)` for a one-character separator, on the
underlying character list. -/
def splitOnChar (sep : Char) : List Char → List (List Char)
  | [] => [[]]
  | c :: rest =>
    let r := splitOnChar sep rest
    if c = sep then [] :: r
    else
      match r with
      | [] => [[c]]
      | h :: t => (c :: h) :: t

/-- JavaScript `s.split(sep)` at the `String` level. -/
def jsSplit (s : String) (sep : Char) : List String :=
  (splitOnChar sep s.data).map String.mk

/-- JavaScript `parts.join(sep)`. -/
def jsJoin (sep : String) : List String → String
  | [] => ""
  | [x] => x
  | x :: xs => x ++ sep ++ jsJoin sep xs

/-- Translation of `TokenManager.encrypt` (token-manager source, lines
644 to 654 of the meta-context concatenation): the hex of the random iv,
a colon, then the hex ciphertext produced by the node cipher. -/
def tmEncrypt (cipherEnc : String → String) (ivHex : String)
    (text : String) : String :=
  ivHex ++ ":" ++ cipherEnc text

/-- Translation of `TokenManager.decrypt` (same source, lines 659 to
672): split on `:`, drop the iv part, join the remainder with `:` and
decipher it. -/
def tmDecrypt (cipherDec : String → String) (encryptedText : String) : String :=
  let textParts := jsSplit encryptedText ':'
  let encrypted := jsJoin ":" textParts.tail
  cipherDec encrypted

/-- The `TokenData` record of the token manager. -/
structure TMTokenData where
  access_token : String
  token_type : String
  expires_in : Option Nat
  refresh_token : Option String
  scope : Option String
  expires_at : Option Nat
  user_id : Option String
  created_at : Nat
  deriving Repr, DecidableEq

/-- `MemoryTokenStorage.store` (same source, lines 472 to 477): store the
record with `created_at` overwritten by `Date.now()`. -/
def memoryTokenStore (m : List (String × TMTokenData)) (userId : String)
    (tokenData : TMTokenData) (now : Nat) : List (String × TMTokenData) :=
  mapSet m userId { tokenData with created_at := now }

/-- `MemoryTokenStorage.retrieve` (same source, lines 479 to 481). -/
def memoryTokenRetrieve (m : List (String × TMTokenData)) (userId : String) :
    Option TMTokenData :=
  mapGet m userId

/-- Translation of `TokenManager.storeToken` (same source, lines 555 to
569).  `if (tokenData.expires_in)` and
`tokenData.refresh_token ? this.encrypt(...) : undefined` use JavaScript
truthiness, so a zero `expires_in` sets no `expires_at` and an empty
`refresh_token` is stored as `undefined`.  The two iv parameters stand
for the two independent random ivs drawn by the two `encrypt` calls. -/
def storeToken (m : List (String × TMTokenData))
    (cipherEnc : String → String) (ivA ivR : String)
    (userId : String) (tokenData : TMTokenData) (now : Nat) :
    List (String × TMTokenData) :=
  let td :=
    if jsTruthyNat tokenData.expires_in then
      { tokenData with expires_at := some (now + tokenData.expires_in.getD 0 * 1000) }
    else tokenData
  let encryptedData :=
    { td with
      access_token := tmEncrypt cipherEnc ivA td.access_token
      refresh_token :=
        if jsTruthyStr td.refresh_token then
          some (tmEncrypt cipherEnc ivR (td.refresh_token.getD ""))
        else none }
  memoryTokenStore m userId encryptedData now

/-- Translation of `TokenManager.getToken` (same source, lines 574 to
586): retrieve and decrypt the sensitive fields, with the same
truthiness guard on `refresh_token`. -/
def getToken (m : List (String × TMTokenData))
    (cipherDec : String → String) (userId : String) : Option TMTokenData :=
  match memoryTokenRetrieve m userId with
  | none => none
  | some tokenData =>
    some { tokenData with
      access_token := tmDecrypt cipherDec tokenData.access_token
      refresh_token :=
        if jsTruthyStr tokenData.refresh_token then
          some (tmDecrypt cipherDec (tokenData.refresh_token.getD ""))
        else none }

/-! ## MetaContext access-token extraction
(src/lib/shared/meta-context.ts, lines 213 to 250)

`extractAccessToken` reads `headers['authorization']` (falling back to
`headers['Authorization']`), applies the regular expression
`/^Bearer\s+(.+)$/i`, and otherwise falls back to the
`x-access-token` / `X-Access-Token` headers.  The regular expression is
embedded with JavaScript semantics: `\s` is the whitespace class, `.`
matches every character except a line terminator, `\s+` is greedy with
backtracking, and the `i` flag lowercases the ASCII pattern letters. -/

/-- The characters matched by `.` in a JavaScript regular expression
without the `s` flag: everything except the four line terminators. -/
def jsDotChar (c : Char) : Bool :=
  ¬ (c = '\n' ∨ c = '\r' ∨ c.toNat = 0x2028 ∨ c.toNat = 0x2029)

/-- The characters matched by `\s` in a JavaScript regular expression:
ASCII whitespace, no-break space, BOM and the Unicode separator
characters (the space separators are listed by code point). -/
def jsWsChar (c : Char) : Bool :=
  c = ' ' ∨ c = '\t' ∨ c = '\n' ∨ c = '\r' ∨
  c.toNat = 0x0b ∨ c.toNat = 0x0c ∨ c.toNat = 0xa0 ∨ c.toNat = 0xfeff ∨
  c.toNat = 0x1680 ∨ (0x2000 ≤ c.toNat ∧ c.toNat ≤ 0x200a) ∨
  c.toNat = 0x2028 ∨ c.toNat = 0x2029 ∨ c.toNat = 0x202f ∨
  c.toNat = 0x205f ∨ c.toNat = 0x3000

/-- Matching of `\s+(.+)$` against the characters after the `Bearer`
literal, with the greedy backtracking order of the JavaScript engine:
the whitespace run is extended as far as possible first, and shortened
only when the tail cannot be matched by `(.+)$`. -/
def bearerRest : List Char → Option (List Char)
  | [] => none
  | c :: cs =>
    if jsWsChar c then
      match bearerRest cs with
      | some r => some r
      | none => if cs ≠ [] ∧ cs.all jsDotChar then some cs else none
    else none

/-- Matching of the full `/^Bearer\s+(.+)$/i` pattern: a case-insensitive
`Bearer` literal, then `bearerRest`.  Returns the capture group. -/
def bearerToken (s : String) : Option String :=
  if (s.data.take 6).map Char.toLower = "bearer".data then
    (bearerRest (s.data.drop 6)).map String.mk
  else none

/-- Request headers as sent to `withClient`: a plain JavaScript object,
looked up with exact (case-sensitive) keys. -/
abbrev HeadersMap : Type := List (String × String)

/-- Translation of `MetaContext.extractAccessToken` (meta-context.ts
lines 228 to 250). -/
def extractAccessToken (headers : HeadersMap) : Option String :=
  match jsOrOptStr (mapGet headers "authorization") (mapGet headers "Authorization") with
  | some authHeader =>
    match bearerToken authHeader with
    | some tok => some tok
    | none => some authHeader
  | none =>
    jsOrOptStr (mapGet headers "x-access-token") (mapGet headers "X-Access-Token")

/-- Translation of `MetaContext.withClient` (meta-context.ts lines 214
to 226).  The callback is a pure function of the access token the client
was constructed with; the Boolean records whether the callback ran. -/
def withClient {α : Type} (headers : HeadersMap) (callback : String → α) :
    Except String α × Bool :=
  match extractAccessToken headers with
  | none => (.error "No access token provided in headers", false)
  | some accessToken =>
    if accessToken = "" then (.error "No access token provided in headers", false)
    else (.ok (callback accessToken), true)

/-! ## ToolFactory (tool-factory source)

`registerTool` wraps a handler so that every invocation produces an MCP
response envelope: a single text content item whose text is
`JSON.stringify` of `{ success: true, data, ...(message && { message }) }`
on success, or of `{ success: false, error }` with `isError: true` on
failure.  `JSON.stringify` drops object keys whose value is `undefined`;
the serialized object is therefore modelled by the key set it ends up
with (`EnvelopeJson`), keeping the payload type abstract.  A thrown
JavaScript exception is modelled as `Except.error (some message)` for an
`Error` and `Except.error none` for a non-`Error` throw. -/

/-- The tool response contract returned by handlers
(`ToolResponse` in the source). -/
structure ToolResponse (α : Type) where
  success : Bool
  data : Option α := none
  error : Option String := none
  message : Option String := none
  deriving Repr, DecidableEq

/-- The context handed to a handler by `registerTool`. -/
structure ToolContext where
  toolName : String
  description : Option String
  deriving Repr, DecidableEq

/-- The JSON object serialized into the text content item, described by
the keys that survive `JSON.stringify`: `data` is present exactly when
it is not `undefined`, `message` and `error` exactly when set. -/
structure EnvelopeJson (α : Type) where
  success : Bool
  data : Option α
  message : Option String
  error : Option String
  deriving Repr, DecidableEq

/-- One MCP content item: the literal type tag `"text"` and the
serialized JSON payload. -/
structure ContentItem (α : Type) where
  ctype : String
  payload : EnvelopeJson α
  deriving Repr, DecidableEq

/-- The MCP response envelope returned to the protocol layer; `isError`
is absent (`none`) on success responses. -/
structure McpEnvelope (α : Type) where
  content : List (ContentItem α)
  isError : Option Bool := none
  deriving Repr, DecidableEq

/-- Translation of `ToolFactory.formatSuccessResponse` (tool-factory
source, lines 353 to 368): `...(result.message && { message })` spreads
the key only for a truthy message. -/
def formatSuccessResponse {α : Type} (result : ToolResponse α) : McpEnvelope α :=
  { content := [⟨"text",
      { success := true
        data := result.data
        message := if jsTruthyStr result.message then result.message else none
        error := none }⟩]
    isError := none }

/-- Translation of `ToolFactory.formatErrorResponse` (tool-factory
source, lines 373 to 388). -/
def formatErrorResponse {α : Type} (error : String) : McpEnvelope α :=
  { content := [⟨"text",
      { success := false, data := none, message := none, error := some error }⟩]
    isError := some true }

/-- JavaScript `error instanceof Error ? error.message : 'Unknown error
occurred'` for a thrown value. -/
def jsErrMsg (e : Option String) : String :=
  match e with
  | some m => m
  | none => "Unknown error occurred"

/-- Translation of the wrapper that `ToolFactory.registerTool` installs
around a handler (tool-factory source, lines 305 to 333): run the
handler, format a success or error envelope from its result, and turn a
thrown exception into an error envelope. -/
def registerToolWrapper {α β : Type}
    (name description : String)
    (handler : α → ToolContext → Except (Option String) (ToolResponse β))
    (args : α) : McpEnvelope β :=
  match handler args ⟨name, some description⟩ with
  | .error e => formatErrorResponse (jsErrMsg e)
  | .ok result =>
    if result.success then formatSuccessResponse result
    else formatErrorResponse (jsOrStr result.error "Unknown error occurred")

/-! ## The refactored create_campaign tool
(src/tools/create-campaign.ts, lines 174 to 235)

The handler validates the two budget fields with JavaScript truthiness
(`if (daily_budget && lifetime_budget)`, `if (!daily_budget &&
!lifetime_budget)`), builds the campaign data with `status: status ||
"PAUSED"`, and only then calls `metaClient.createCampaign`.  The API
call is passed in as a function from campaign data to the created id;
the list of calls the handler performed is returned alongside the
response. -/

/-- The arguments of the `create_campaign` tool
(`CreateCampaignSchema`); optional parameters are `none` when omitted. -/
structure CreateCampaignArgs where
  account_id : String
  name : String
  objective : String
  status : Option String
  daily_budget : Option Int
  lifetime_budget : Option Int
  start_time : Option String
  stop_time : Option String
  special_ad_categories : Option (List String)
  bid_strategy : Option String
  bid_cap : Option Int
  budget_optimization : Option Bool
  deriving Repr, DecidableEq

/-- The campaign data object sent to `metaClient.createCampaign`; keys
guarded by `if (...)` in the source are `none` when the guard is
falsy. -/
structure CampaignData where
  name : String
  objective : String
  status : String
  daily_budget : Option Int
  lifetime_budget : Option Int
  start_time : Option String
  stop_time : Option String
  special_ad_categories : Option (List String)
  bid_strategy : Option String
  bid_cap : Option Int
  is_budget_optimization_enabled : Option Bool
  deriving Repr, DecidableEq

/-- The success payload of the `create_campaign` tool. -/
structure CreateCampaignSuccess where
  campaign_id : String
  status : String
  details : CampaignData
  deriving Repr, DecidableEq

/-- Campaign data as built by the handler after validation
(create-campaign.ts lines 207 to 222). -/
def buildCampaignData (a : CreateCampaignArgs) : CampaignData :=
  { name := a.name
    objective := a.objective
    status := jsOrStr a.status "PAUSED"
    daily_budget := if jsTruthyInt a.daily_budget then a.daily_budget else none
    lifetime_budget := if jsTruthyInt a.lifetime_budget then a.lifetime_budget else none
    start_time := if jsTruthyStr a.start_time then a.start_time else none
    stop_time := if jsTruthyStr a.stop_time then a.stop_time else none
    special_ad_categories := a.special_ad_categories
    bid_strategy := if jsTruthyStr a.bid_strategy then a.bid_strategy else none
    bid_cap := if jsTruthyInt a.bid_cap then a.bid_cap else none
    is_budget_optimization_enabled := a.budget_optimization }

/-- Translation of the `create_campaign` handler registered by
`registerCampaignToolsRefactored` (create-campaign.ts lines 175 to 235).
`api` stands for `metaClient.createCampaign`, returning the id of the
created campaign; the second component lists the API calls made. -/
def createCampaignHandler (api : CampaignData → String)
    (a : CreateCampaignArgs) :
    ToolResponse CreateCampaignSuccess × List CampaignData :=
  if jsTruthyInt a.daily_budget ∧ jsTruthyInt a.lifetime_budget then
    ({ success := false
       error := some "Cannot specify both daily_budget and lifetime_budget. Choose one budget type." },
     [])
  else if ¬ jsTruthyInt a.daily_budget ∧ ¬ jsTruthyInt a.lifetime_budget then
    ({ success := false
       error := some "Must specify either daily_budget or lifetime_budget." },
     [])
  else
    let campaignData := buildCampaignData a
    let createdId := api campaignData
    ({ success := true
       data := some ⟨createdId, "created", campaignData⟩
       message := some ("Campaign \"" ++ a.name ++ "\" created successfully") },
     [campaignData])

/-! ## Retry layer and BaseApiClient (base-api-client source)

`BaseApiClient.makeRequest` awaits `globalRateLimiter.checkRateLimit`
when an `accountId` is given, then runs the fetch inside
`retryWithBackoff`; `postData` and `deleteResource` delegate to it with
`isWriteCall = true`.  The bodies of `retryWithBackoff` and
`MetaApiErrorHandler.handleResponse` live in src/utils/error-handler.ts
and src/utils/rate-limiter.ts, which are not among the provided
sources, so they are modelled from the specification. -/

/-- One HTTP response received by an attempt: the status code and the
parsed payload. -/
structure HttpResponse (α : Type) where
  status : Nat
  payload : α
  deriving Repr, DecidableEq

/-- Outcome of checking one HTTP response. -/
inductive ApiOutcome (α : Type) where
  | ok (value : α)
  | clientError (status : Nat)
  | serverError (status : Nat)
  deriving Repr, DecidableEq

/-- Modelled from the spec: `MetaApiErrorHandler.handleResponse`
(src/utils/error-handler.ts, not among the provided sources).  The spec
describes the failure model as "retry on 5xx, surface 4xx": a 2xx
response yields its payload, a 5xx response is a retryable server
error, everything else is surfaced as a non-retryable error. -/
def handleResponse {α : Type} (r : HttpResponse α) : ApiOutcome α :=
  if 200 ≤ r.status ∧ r.status < 300 then .ok r.payload
  else if 500 ≤ r.status then .serverError r.status
  else .clientError r.status

/-- Result of running the retry loop: the surfaced result, the number of
attempts performed, and the backoff delays waited between attempts. -/
structure RetryResult (α : Type) where
  result : Except Nat α
  attempts : Nat
  delays : List Nat
  deriving Repr

/-- Modelled from the spec: the loop of `retryWithBackoff`
(src/utils/error-handler.ts, not among the provided sources), described
by the spec as "retry-with-backoff" / "retry on 5xx, surface 4xx".
`remaining` is the number of attempts still allowed, `attempt` the
zero-based index of the current attempt, `responses` the successive
responses the network returns.  A server error is retried after an
exponential delay while attempts remain; a client error is surfaced at
once.  An exhausted attempt budget or response list surfaces the last
error. -/
def retryAux {α : Type} (baseDelay : Nat) :
    Nat → Nat → List (HttpResponse α) → RetryResult α
  | 0, _, _ => ⟨.error 0, 0, []⟩
  | _ + 1, _, [] => ⟨.error 0, 0, []⟩
  | remaining + 1, attempt, r :: rest =>
    match handleResponse r with
    | .ok v => ⟨.ok v, 1, []⟩
    | .clientError s => ⟨.error s, 1, []⟩
    | .serverError s =>
      if remaining = 0 then ⟨.error s, 1, []⟩
      else
        let tailRun := retryAux baseDelay remaining (attempt + 1) rest
        ⟨tailRun.result, tailRun.attempts + 1,
          baseDelay * 2 ^ attempt :: tailRun.delays⟩

/-- Modelled from the spec: `retryWithBackoff` entry point with a
maximum attempt count. -/
def retryWithBackoff {α : Type} (baseDelay maxAttempts : Nat)
    (responses : List (HttpResponse α)) : RetryResult α :=
  retryAux baseDelay maxAttempts 0 responses

/-- Observable events of one `makeRequest` run, in order: the awaited
rate-limit check and each HTTP fetch attempt. -/
inductive ReqEvent where
  | rateCheck (accountId : String) (isWriteCall : Bool)
  | httpAttempt (endpoint : String) (method : String)
  deriving Repr, DecidableEq

/-- Errors surfaced by `makeRequest`: a rejected rate-limit check or an
HTTP error status. -/
inductive ReqError where
  | rateLimited (message : String)
  | http (status : Nat)
  deriving Repr, DecidableEq

/-- Translation of `BaseApiClient.makeRequest` (base-api-client source,
lines 28 to 68): when `accountId` is truthy the rate-limit check is
awaited first (its outcome `rateOutcome` models
`globalRateLimiter.checkRateLimit`, whose body is outside the provided
sources and may throw), and only then the fetch attempts run inside
`retryWithBackoff`.  Returns the surfaced result and the ordered event
trace. -/
def makeRequest {α : Type} (endpoint : String) (method : String)
    (accountId : Option String) (isWriteCall : Bool)
    (rateOutcome : Except String Unit) (baseDelay maxAttempts : Nat)
    (responses : List (HttpResponse α)) :
    Except ReqError α × List ReqEvent :=
  if jsTruthyStr accountId then
    let acct := accountId.getD ""
    match rateOutcome with
    | .error e => (.error (.rateLimited e), [.rateCheck acct isWriteCall])
    | .ok _ =>
      let run := retryWithBackoff baseDelay maxAttempts responses
      (run.result.mapError ReqError.http,
        .rateCheck acct isWriteCall ::
          List.replicate run.attempts (.httpAttempt endpoint method))
  else
    let run := retryWithBackoff baseDelay maxAttempts responses
    (run.result.mapError ReqError.http,
      List.replicate run.attempts (.httpAttempt endpoint method))

/-- Translation of `BaseApiClient.postData` (base-api-client source,
lines 120 to 134): build the urlencoded body and delegate to
`makeRequest` with method POST and `isWriteCall = true`.  The body is
the query string of the already stringified data values. -/
def postData {α : Type} (endpoint : String) (data : List (String × String))
    (accountId : Option String) (rateOutcome : Except String Unit)
    (baseDelay maxAttempts : Nat) (responses : List (HttpResponse α)) :
    Except ReqError α × List ReqEvent :=
  let _body := queryString data
  makeRequest endpoint "POST" accountId true rateOutcome baseDelay maxAttempts responses

/-- Translation of `BaseApiClient.deleteResource` (base-api-client
source, lines 139 to 150): delegate to `makeRequest` with method DELETE
and `isWriteCall = true`. -/
def deleteResource {α : Type} (endpoint : String) (accountId : Option String)
    (rateOutcome : Except String Unit) (baseDelay maxAttempts : Nat)
    (responses : List (HttpResponse α)) :
    Except ReqError α × List ReqEvent :=
  makeRequest endpoint "DELETE" accountId true rateOutcome baseDelay maxAttempts responses

/-! ## Map lemmas shared by the theorems below -/

theorem mapGet_mapSet_self {β : Type} (m : List (String × β)) (k : String) (v : β) :
    mapGet (mapSet m k v) k = some v := by
  induction m with
  | nil => simp [mapSet, mapGet]
  | cons p rest ih =>
    obtain ⟨k', v'⟩ := p
    by_cases h : k' = k
    · simp [mapSet, mapGet, h]
    · simp [mapSet, mapGet, h, ih]

theorem mapGet_mapSet_ne {β : Type} (m : List (String × β)) (k k' : String) (v : β)
    (h : k' ≠ k) : mapGet (mapSet m k v) k' = mapGet m k' := by
  have hk : ¬ k = k' := fun e => h e.symm
  induction m with
  | nil => simp [mapSet, mapGet, hk]
  | cons p rest ih =>
    obtain ⟨k₀, v₀⟩ := p
    by_cases h₀ : k₀ = k
    · subst h₀
      simp [mapSet, mapGet, hk]
    · simp only [mapSet, if_neg h₀, mapGet]
      by_cases h₁ : k₀ = k'
      · simp [h₁]
      · simp [h₁, ih]

theorem mapGet_mapDelete_self {β : Type} (m : List (String × β)) (k : String) :
    mapGet (mapDelete m k) k = none := by
  induction m with
  | nil => simp [mapDelete, mapGet]
  | cons p rest ih =>
    obtain ⟨k', v'⟩ := p
    by_cases h : k' = k
    · simpa [mapDelete, List.filter_cons, h] using ih
    · simpa [mapDelete, List.filter_cons, h, mapGet] using ih

theorem mapGet_mapDelete_ne {β : Type} (m : List (String × β)) (k k' : String)
    (h : k' ≠ k) : mapGet (mapDelete m k) k' = mapGet m k' := by
  induction m with
  | nil => simp [mapDelete, mapGet]
  | cons p rest ih =>
    obtain ⟨k₀, v₀⟩ := p
    by_cases h₀ : k₀ = k
    · subst h₀
      have h₂ : ¬ k₀ = k' := fun e => h e.symm
      simpa [mapDelete, List.filter_cons, mapGet, h₂] using ih
    · by_cases h₁ : k₀ = k'
      · simp [mapDelete, List.filter_cons, mapGet, h₀, h₁, h]
      · simpa [mapDelete, List.filter_cons, mapGet, h₀, h₁] using ih

/-! ## Account-id lemmas -/

theorem jsStartsWith_act_append (s : String) :
    jsStartsWith ("act_" ++ s) "act_" = true := by
  obtain ⟨l⟩ := s
  simp only [jsStartsWith, String.data_append]
  rw [List.isPrefixOf_iff_prefix]
  exact List.prefix_append _ _

theorem extractAccountNumber_act_append (s : String) :
    extractAccountNumber ("act_" ++ s) = s := by
  obtain ⟨l⟩ := s
  simp only [extractAccountNumber, jsStartsWith_act_append, if_true]
  rfl

/-- Claim C8: `getAccountId` always returns a string starting with
`act_` (the argument itself when it already starts with `act_`,
otherwise `act_` prepended); it is idempotent; and for arguments not
starting with `act_`, `extractAccountNumber` undoes it. -/
theorem spec_C8_getAccountId_normalization (s : String) :
    jsStartsWith (getAccountId s) "act_" = true ∧
    (jsStartsWith s "act_" = true → getAccountId s = s) ∧
    (jsStartsWith s "act_" = false → getAccountId s = "act_" ++ s) ∧
    getAccountId (getAccountId s) = getAccountId s ∧
    (jsStartsWith s "act_" = false → extractAccountNumber (getAccountId s) = s) := by
  by_cases h : jsStartsWith s "act_" = true
  · refine ⟨?_, ?_, ?_, ?_, ?_⟩
    · simp [getAccountId, h]
    · intro _; simp [getAccountId, h]
    · intro hf; rw [h] at hf; cases hf
    · simp [getAccountId, h]
    · intro hf; rw [h] at hf; cases hf
  · have h' : jsStartsWith s "act_" = false := by
      cases hb : jsStartsWith s "act_" with
      | true => exact absurd hb h
      | false => rfl
    refine ⟨?_, ?_, ?_, ?_, ?_⟩
    · simp [getAccountId, h', jsStartsWith_act_append]
    · intro ht; rw [ht] at h'; cases h'
    · intro _; simp [getAccountId, h']
    · simp [getAccountId, h', jsStartsWith_act_append]
    · intro _
      simp [getAccountId, h', extractAccountNumber_act_append]

/-- Witness for C8 at a concrete input, discharging the hypotheses of
the conditional parts. -/
theorem spec_C8_getAccountId_normalization_witness :
    getAccountId "123" = "act_" ++ "123" ∧
    extractAccountNumber (getAccountId "123") = "123" ∧
    getAccountId (getAccountId "123") = getAccountId "123" := by
  have h := spec_C8_getAccountId_normalization "123"
  exact ⟨h.2.2.1 (by decide), h.2.2.2.2 (by decide), h.2.2.2.1⟩

/-! ## Memory adapter TTL -/

/-- Counterexample to claim C3 as stated: the claim quantifies over every
`n`, but for `n = 0` the adapter stores no expiry at all (the ternary
`options?.ex ? ... : undefined` sees the falsy `0`), so a get performed
after 0 seconds have elapsed still returns the value instead of null. -/
theorem spec_C3_counterexample :
    (memGet (memSet ([] : MemStore String) "k" "v" (some 0) 0) "k" 5000).1 = some "v" ∧
    ¬ (memGet (memSet ([] : MemStore String) "k" "v" (some 0) 0) "k" 5000).1 = none := by
  exact ⟨by decide, by decide⟩

/-- Claim C3, amended for the truthiness of the `ex` option: for every
positive `n`, a value set with `{ex: n}` at time `now` is returned by a
get before `now + n` seconds, while a get after `now + n` seconds
returns null and deletes the entry; a set without `ex` (and, forced by
the counterexample, a set with `ex: 0`) never expires. -/
theorem spec_C3_memory_adapter_ttl {α : Type} (m : MemStore α) (key : String)
    (v : α) (n now t : Nat) (hn : 1 ≤ n) :
    (t < now + n * 1000 →
      (memGet (memSet m key v (some n) now) key t).1 = some v) ∧
    (t > now + n * 1000 →
      (memGet (memSet m key v (some n) now) key t).1 = none ∧
      mapGet (memGet (memSet m key v (some n) now) key t).2 key = none) ∧
    (memGet (memSet m key v none now) key t).1 = some v := by
  have hne : n ≠ 0 := Nat.one_le_iff_ne_zero.mp hn
  have hset : memSet m key v (some n) now =
      mapSet m key { value := v, expiry := some (now + n * 1000) } := by
    simp [memSet, jsTruthyNat, hne]
  have hexp : now + n * 1000 ≠ 0 := by
    have : 1000 ≤ n * 1000 := Nat.le_mul_of_pos_left 1000 hn
    omega
  refine ⟨?_, ?_, ?_⟩
  · intro ht
    have hlt : ¬ t > now + n * 1000 := by omega
    simp [hset, memGet, mapGet_mapSet_self, jsTruthyExpiry, hexp, hlt]
  · intro ht
    constructor
    · simp [hset, memGet, mapGet_mapSet_self, jsTruthyExpiry, hexp, ht]
    · simp [hset, memGet, mapGet_mapSet_self, jsTruthyExpiry, hexp, ht,
        mapGet_mapDelete_self]
  · simp [memSet, memGet, jsTruthyNat, mapGet_mapSet_self, jsTruthyExpiry]

/-- Witness for the amended C3 at concrete inputs: `n = 2`, set at time
1000, read back at 2000 (before expiry) and at 4000 (after expiry). -/
theorem spec_C3_memory_adapter_ttl_witness :
    (memGet (memSet ([] : MemStore String) "k" "v" (some 2) 1000) "k" 2000).1 = some "v" ∧
    (memGet (memSet ([] : MemStore String) "k" "v" (some 2) 1000) "k" 4000).1 = none := by
  have h1 := spec_C3_memory_adapter_ttl ([] : MemStore String) "k" "v" 2 1000 2000 (by decide)
  have h2 := spec_C3_memory_adapter_ttl ([] : MemStore String) "k" "v" 2 1000 4000 (by decide)
  exact ⟨h1.1 (by decide), (h2.2.1 (by decide)).1⟩

/-! ## getUserSession lemmas -/

theorem memGet_snd_cases {α : Type} (m : MemStore α) (key : String) (now : Nat) :
    (memGet m key now).2 = m ∨ (memGet m key now).2 = mapDelete m key := by
  unfold memGet
  cases h : mapGet m key with
  | none => left; rfl
  | some item =>
    by_cases hx : jsTruthyExpiry item.expiry ∧ now > item.expiry.getD 0
    · right; simp [hx]
    · left; simp [hx]

theorem memGet_snd_frame {α : Type} (m : MemStore α) (key : String) (now : Nat)
    (k : String) (h : k ≠ key) :
    mapGet (memGet m key now).2 k = mapGet m k := by
  rcases memGet_snd_cases m key now with hc | hc
  · rw [hc]
  · rw [hc]; exact mapGet_mapDelete_ne m key k h

theorem memGet_some_snd {α : Type} (m : MemStore α) (key : String) (now : Nat)
    (s : α) (h : (memGet m key now).1 = some s) : (memGet m key now).2 = m := by
  unfold memGet at h ⊢
  cases hm : mapGet m key with
  | none => simp [hm] at h
  | some item =>
    simp only [hm] at h ⊢
    by_cases hx : jsTruthyExpiry item.expiry = true ∧ now > item.expiry.getD 0
    · simp [hx] at h
    · simp [hx]

theorem getUserSession_eq (store : MemStore UserSession) (sid : String) (now : Nat) :
    getUserSession store sid now =
      match (memGet store ("session:" ++ sid) now).1 with
      | none => (none, (memGet store ("session:" ++ sid) now).2)
      | some s =>
        (some { s with lastUsed := now },
          memSet (memGet store ("session:" ++ sid) now).2 ("session:" ++ sid)
            { s with lastUsed := now } (some sevenDaysSeconds) now) := by
  unfold getUserSession
  rcases memGet store ("session:" ++ sid) now with ⟨res, store1⟩
  cases res <;> rfl

/-- Counterexample to claim C7 as stated: when the entry stored under
the session id has already expired, `getUserSession` returns null but
the read deletes the expired entry, so the store does change.  The
concrete store below holds one expired session entry; after the call the
store is empty. -/
theorem spec_C7_counterexample :
    (getUserSession
        (memSet ([] : MemStore UserSession) "session:abc"
          { sessionId := "abc", userId := "u1", email := "e", name := "n"
            metaUserId := "m", accessToken := "tok", refreshToken := none
            availableAccounts := [], createdAt := 0, lastUsed := 0 }
          (some 1) 0)
        "abc" 2000).1 = none ∧
    ¬ ((getUserSession
        (memSet ([] : MemStore UserSession) "session:abc"
          { sessionId := "abc", userId := "u1", email := "e", name := "n"
            metaUserId := "m", accessToken := "tok", refreshToken := none
            availableAccounts := [], createdAt := 0, lastUsed := 0 }
          (some 1) 0)
        "abc" 2000).2 =
      memSet ([] : MemStore UserSession) "session:abc"
        { sessionId := "abc", userId := "u1", email := "e", name := "n"
          metaUserId := "m", accessToken := "tok", refreshToken := none
          availableAccounts := [], createdAt := 0, lastUsed := 0 }
        (some 1) 0) := by
  exact ⟨by decide, by decide⟩

/-- Claim C7, amended for the read side effect of the memory adapter:
when no unexpired session is stored under the id, `getUserSession`
returns null and leaves the store unchanged except that an expired
entry under `session:<id>` may be removed by the read (every other key
is untouched); when an unexpired session exists, it is returned with
`lastUsed` set to now and every other field unchanged, and is re-stored
under the same key with a fresh seven-day TTL, every other key again
untouched. -/
theorem spec_C7_getUserSession_sliding_expiry (store : MemStore UserSession)
    (sid : String) (now : Nat) :
    ((memGet store ("session:" ++ sid) now).1 = none →
      (getUserSession store sid now).1 = none ∧
      ((getUserSession store sid now).2 = store ∨
        (getUserSession store sid now).2 = mapDelete store ("session:" ++ sid)) ∧
      (∀ k, k ≠ "session:" ++ sid →
        mapGet (getUserSession store sid now).2 k = mapGet store k)) ∧
    (∀ s, (memGet store ("session:" ++ sid) now).1 = some s →
      (getUserSession store sid now).1 = some { s with lastUsed := now } ∧
      mapGet (getUserSession store sid now).2 ("session:" ++ sid) =
        some { value := { s with lastUsed := now }
               expiry := some (now + sevenDaysSeconds * 1000) } ∧
      (∀ k, k ≠ "session:" ++ sid →
        mapGet (getUserSession store sid now).2 k = mapGet store k)) := by
  constructor
  · intro h
    have hgu : getUserSession store sid now =
        (none, (memGet store ("session:" ++ sid) now).2) := by
      rw [getUserSession_eq, h]
    refine ⟨by rw [hgu], ?_, ?_⟩
    · rw [hgu]
      exact memGet_snd_cases store ("session:" ++ sid) now
    · intro k hk
      rw [hgu]
      exact memGet_snd_frame store ("session:" ++ sid) now k hk
  · intro s h
    have hsnd := memGet_some_snd store ("session:" ++ sid) now s h
    have hgu : getUserSession store sid now =
        (some { s with lastUsed := now },
          memSet store ("session:" ++ sid) { s with lastUsed := now }
            (some sevenDaysSeconds) now) := by
      rw [getUserSession_eq, h, hsnd]
    have hTrue : jsTruthyNat (some sevenDaysSeconds) = true := by decide
    refine ⟨by rw [hgu], ?_, ?_⟩
    · rw [hgu]
      simp only [memSet, hTrue, if_true]
      have := mapGet_mapSet_self store ("session:" ++ sid)
        (⟨{ s with lastUsed := now }, some (now + sevenDaysSeconds * 1000)⟩ : MemEntry UserSession)
      simpa [sevenDaysSeconds] using this
    · intro k hk
      rw [hgu]
      simp only [memSet]
      rw [mapGet_mapSet_ne _ _ _ _ hk]

/-- Witness for the amended C7: a store holding one live session; the
read returns it with `lastUsed` advanced and re-stores it with the
seven-day TTL. -/
theorem spec_C7_getUserSession_sliding_expiry_witness :
    (getUserSession
        (memSet ([] : MemStore UserSession) "session:abc"
          { sessionId := "abc", userId := "u1", email := "e", name := "n"
            metaUserId := "m", accessToken := "tok", refreshToken := none
            availableAccounts := [], createdAt := 0, lastUsed := 0 }
          (some 604800) 0)
        "abc" 5000).1 =
      some { sessionId := "abc", userId := "u1", email := "e", name := "n"
             metaUserId := "m", accessToken := "tok", refreshToken := none
             availableAccounts := [], createdAt := 0, lastUsed := 5000 } := by
  have h := (spec_C7_getUserSession_sliding_expiry
    (memSet ([] : MemStore UserSession) "session:abc"
      { sessionId := "abc", userId := "u1", email := "e", name := "n"
        metaUserId := "m", accessToken := "tok", refreshToken := none
        availableAccounts := [], createdAt := 0, lastUsed := 0 }
      (some 604800) 0)
    "abc" 5000).2
    { sessionId := "abc", userId := "u1", email := "e", name := "n"
      metaUserId := "m", accessToken := "tok", refreshToken := none
      availableAccounts := [], createdAt := 0, lastUsed := 0 }
    (by decide)
  exact h.1

/-! ## OAuth state validation lemmas -/

theorem handleCallback_not_exchanged_of_get_none (st : OAuthStateStore)
    (q : CallbackQuery) (now : Nat) (exch : Except String OAuthTokenData)
    (h : mapGet st (q.state.getD "") = none) :
    (handleCallback st q now exch).1.exchanged = false := by
  unfold handleCallback
  by_cases hE : jsTruthyStr q.error = true
  · simp [hE]
  · by_cases hC : jsTruthyStr q.code = true
    · by_cases hS : jsTruthyStr q.state = true
      · simp [hE, hC, hS, h]
      · simp [hE, hC, hS]
    · simp [hE, hC]

/-- Claim C2: the callback exchanges the code only for a state that is
truthy, present in the state store and unexpired, and deletes an
accepted state; every other callback redirects to the error page with no
exchange and an untouched store; `generateAuthUrl` is what puts a state
into the store, valid for ten minutes; and after an acceptance the same
state value is never accepted again. -/
theorem spec_C2_oauth_state_single_use (store : OAuthStateStore)
    (q : CallbackQuery) (now : Nat) (exch : Except String OAuthTokenData) :
    ((handleCallback store q now exch).1.exchanged = true →
      jsTruthyStr q.error = false ∧ jsTruthyStr q.code = true ∧
      jsTruthyStr q.state = true ∧
      ∃ sd, mapGet store (q.state.getD "") = some sd ∧ now ≤ sd.timestamp ∧
        (handleCallback store q now exch).2 = mapDelete store (q.state.getD "")) ∧
    (¬ (jsTruthyStr q.error = false ∧ jsTruthyStr q.code = true ∧
        jsTruthyStr q.state = true ∧
        ∃ sd, mapGet store (q.state.getD "") = some sd ∧ now ≤ sd.timestamp) →
      (handleCallback store q now exch).1.exchanged = false ∧
      (∃ msg, (handleCallback store q now exch).1.redirect = .errorPage msg) ∧
      (handleCallback store q now exch).2 = store) ∧
    (∀ clientId redirectUri scope userId stateVal t0,
      mapGet (generateAuthUrl store clientId redirectUri scope userId stateVal t0).2
          stateVal =
        some { userId := userId, timestamp := t0 + tenMinutesMs }) ∧
    ((handleCallback store q now exch).1.exchanged = true →
      ∀ q2 now2 exch2, q2.state = q.state →
        (handleCallback (handleCallback store q now exch).2 q2 now2 exch2).1.exchanged
          = false) := by
  have hgen : ∀ clientId redirectUri scope userId stateVal t0,
      mapGet (generateAuthUrl store clientId redirectUri scope userId stateVal t0).2
          stateVal =
        some { userId := userId, timestamp := t0 + tenMinutesMs } := by
    intro clientId redirectUri scope userId stateVal t0
    simp [generateAuthUrl, mapGet_mapSet_self]
  by_cases hE : jsTruthyStr q.error = true
  · have hcb : handleCallback store q now exch =
        (⟨.errorPage (jsOrStr q.error_description "OAuth authentication failed"),
          false, none⟩, store) := by
      unfold handleCallback; simp [hE]
    refine ⟨?_, ?_, hgen, ?_⟩
    · intro hx; rw [hcb] at hx; cases hx
    · intro _; exact ⟨by rw [hcb], ⟨_, by rw [hcb]⟩, by rw [hcb]⟩
    · intro hx; rw [hcb] at hx; cases hx
  · by_cases hC : jsTruthyStr q.code = true
    · by_cases hS : jsTruthyStr q.state = true
      · cases hget : mapGet store (q.state.getD "") with
        | none =>
          have hcb : handleCallback store q now exch =
              (⟨.errorPage "Invalid or expired state parameter", false, none⟩,
                store) := by
            unfold handleCallback; simp [hE, hC, hS, hget]
          refine ⟨?_, ?_, hgen, ?_⟩
          · intro hx; rw [hcb] at hx; cases hx
          · intro _; exact ⟨by rw [hcb], ⟨_, by rw [hcb]⟩, by rw [hcb]⟩
          · intro hx; rw [hcb] at hx; cases hx
        | some sd =>
          by_cases hts : sd.timestamp < now
          · have hcb : handleCallback store q now exch =
                (⟨.errorPage "Invalid or expired state parameter", false, none⟩,
                  store) := by
              unfold handleCallback; simp [hE, hC, hS, hget, hts]
            refine ⟨?_, ?_, hgen, ?_⟩
            · intro hx; rw [hcb] at hx; cases hx
            · intro hV; exact ⟨by rw [hcb], ⟨_, by rw [hcb]⟩, by rw [hcb]⟩
            · intro hx; rw [hcb] at hx; cases hx
          · have hEf : jsTruthyStr q.error = false := by
              cases hb : jsTruthyStr q.error with
              | true => exact absurd hb hE
              | false => rfl
            have hcb : handleCallback store q now exch =
                (match exch with
                 | .error _ =>
                   (⟨.errorPage "Authentication failed", true, none⟩,
                     mapDelete store (q.state.getD ""))
                 | .ok tokenData =>
                   (⟨.success, true, some (sd.userId, tokenData)⟩,
                     mapDelete store (q.state.getD ""))) := by
              unfold handleCallback
              simp [hE, hC, hS, hget, hts]
            have hsnd : (handleCallback store q now exch).2 =
                mapDelete store (q.state.getD "") := by
              rw [hcb]; cases exch <;> rfl
            refine ⟨?_, ?_, hgen, ?_⟩
            · intro _
              exact ⟨hEf, hC, hS, sd, rfl, Nat.le_of_not_lt hts, hsnd⟩
            · intro hV
              exact absurd ⟨hEf, hC, hS, sd, rfl, Nat.le_of_not_lt hts⟩ hV
            · intro _ q2 now2 exch2 hq2
              apply handleCallback_not_exchanged_of_get_none
              rw [hsnd, hq2]
              exact mapGet_mapDelete_self store (q.state.getD "")
      · have hcb : handleCallback store q now exch =
            (⟨.errorPage "Missing required OAuth parameters", false, none⟩,
              store) := by
          unfold handleCallback; simp [hE, hC, hS]
        refine ⟨?_, ?_, hgen, ?_⟩
        · intro hx; rw [hcb] at hx; cases hx
        · intro _; exact ⟨by rw [hcb], ⟨_, by rw [hcb]⟩, by rw [hcb]⟩
        · intro hx; rw [hcb] at hx; cases hx
    · have hcb : handleCallback store q now exch =
          (⟨.errorPage "Missing required OAuth parameters", false, none⟩,
            store) := by
        unfold handleCallback; simp [hE, hC]
      refine ⟨?_, ?_, hgen, ?_⟩
      · intro hx; rw [hcb] at hx; cases hx
      · intro _; exact ⟨by rw [hcb], ⟨_, by rw [hcb]⟩, by rw [hcb]⟩
      · intro hx; rw [hcb] at hx; cases hx

/-- Witness for C2 at concrete inputs: a state issued at time 0 is
accepted by a callback at time 1000 presenting it, and a second callback
presenting the same state value is rejected. -/
theorem spec_C2_oauth_state_single_use_witness :
    (handleCallback
        (generateAuthUrl ([] : OAuthStateStore) "cid" "uri" "sc" "u1" "st1" 0).2
        { code := some "c1", state := some "st1", error := none,
          error_description := none } 1000
        (.ok { access_token := "at", token_type := "Bearer", expires_in := none,
               scope := none, user_id := some "u1", created_at := 0 })).1.exchanged
      = true ∧
    (handleCallback
        (handleCallback
          (generateAuthUrl ([] : OAuthStateStore) "cid" "uri" "sc" "u1" "st1" 0).2
          { code := some "c1", state := some "st1", error := none,
            error_description := none } 1000
          (.ok { access_token := "at", token_type := "Bearer", expires_in := none,
                 scope := none, user_id := some "u1", created_at := 0 })).2
        { code := some "c2", state := some "st1", error := none,
          error_description := none } 2000
        (.ok { access_token := "at2", token_type := "Bearer", expires_in := none,
               scope := none, user_id := some "u1", created_at := 0 })).1.exchanged
      = false := by
  constructor
  · decide
  · have h := spec_C2_oauth_state_single_use
      (generateAuthUrl ([] : OAuthStateStore) "cid" "uri" "sc" "u1" "st1" 0).2
      { code := some "c1", state := some "st1", error := none,
        error_description := none } 1000
      (.ok { access_token := "at", token_type := "Bearer", expires_in := none,
             scope := none, user_id := some "u1", created_at := 0 })
    exact h.2.2.2 (by decide)
      { code := some "c2", state := some "st1", error := none,
        error_description := none } 2000
      (.ok { access_token := "at2", token_type := "Bearer", expires_in := none,
             scope := none, user_id := some "u1", created_at := 0 }) rfl

/-! ## Token encryption lemmas -/

theorem splitOnChar_not_mem (sep : Char) (l : List Char) (h : sep ∉ l) :
    splitOnChar sep l = [l] := by
  induction l with
  | nil => rfl
  | cons c cs ih =>
    have hc : ¬ c = sep := fun e => h (e ▸ List.mem_cons_self c cs)
    have hcs : sep ∉ cs := fun hm => h (List.mem_cons_of_mem c hm)
    simp [splitOnChar, hc, ih hcs]

theorem splitOnChar_append (sep : Char) (l1 l2 : List Char) (h1 : sep ∉ l1) :
    splitOnChar sep (l1 ++ sep :: l2) = l1 :: splitOnChar sep l2 := by
  induction l1 with
  | nil => simp [splitOnChar]
  | cons c cs ih =>
    have hc : ¬ c = sep := fun e => h1 (e ▸ List.mem_cons_self c cs)
    have hcs : sep ∉ cs := fun hm => h1 (List.mem_cons_of_mem c hm)
    show splitOnChar sep (c :: (cs ++ sep :: l2)) = (c :: cs) :: splitOnChar sep l2
    simp only [splitOnChar, hc, if_false]
    rw [ih hcs]

theorem tmDecrypt_tmEncrypt (cipherEnc cipherDec : String → String)
    (iv text : String)
    (hinv : cipherDec (cipherEnc text) = text)
    (hiv : ':' ∉ iv.data) (hct : ':' ∉ (cipherEnc text).data) :
    tmDecrypt cipherDec (tmEncrypt cipherEnc iv text) = text := by
  unfold tmEncrypt tmDecrypt jsSplit
  have hdata : (iv ++ ":" ++ cipherEnc text).data =
      iv.data ++ ':' :: (cipherEnc text).data := by
    simp [String.data_append]
  rw [hdata, splitOnChar_append _ _ _ hiv,
    splitOnChar_not_mem _ _ hct]
  simpa [jsJoin] using hinv

theorem tmEncrypt_ne_empty (cipherEnc : String → String) (iv text : String) :
    tmEncrypt cipherEnc iv text ≠ "" := by
  intro h
  have hd := congrArg String.data h
  simp [tmEncrypt, String.data_append] at hd

/-- Counterexample to claim C6 as stated: a token record whose
`refresh_token` is present but empty.  The truthiness guard
`tokenData.refresh_token ? this.encrypt(...) : undefined` drops the
empty string, so the record read back has no `refresh_token` at all
instead of the originally stored plaintext `""`.  The cipher pair is
instantiated with the identity, which is correct for these inputs. -/
theorem spec_C6_counterexample :
    ((getToken
        (storeToken ([] : List (String × TMTokenData)) (fun s => s) "aa" "bb" "u"
          { access_token := "at", token_type := "Bearer", expires_in := none
            refresh_token := some "", scope := none, expires_at := none
            user_id := none, created_at := 0 } 0)
        (fun s => s) "u").map TMTokenData.refresh_token) = some none ∧
    ((getToken
        (storeToken ([] : List (String × TMTokenData)) (fun s => s) "aa" "bb" "u"
          { access_token := "at", token_type := "Bearer", expires_in := none
            refresh_token := some "", scope := none, expires_at := none
            user_id := none, created_at := 0 } 0)
        (fun s => s) "u").map TMTokenData.refresh_token) ≠ some (some "") := by
  exact ⟨by decide, by decide⟩

/-- Claim C6, amended for the truthiness of `refresh_token`: under a
cipher pair that is inverse (with colon-free hex output) on the stored
plaintexts, `storeToken` followed by `getToken` returns a record whose
`access_token` equals the original plaintext, whose `refresh_token`
equals the original plaintext whenever it is present and nonempty, and
(forced by the counterexample) whose `refresh_token` is absent when the
original was absent or empty; and `decrypt` is a left inverse of
`encrypt` on every string on which the underlying node cipher pair is
correct. -/
theorem spec_C6_token_roundtrip (m : List (String × TMTokenData))
    (cipherEnc cipherDec : String → String) (ivA ivR userId : String)
    (td : TMTokenData) (now : Nat)
    (hA : cipherDec (cipherEnc td.access_token) = td.access_token)
    (hcA : ':' ∉ (cipherEnc td.access_token).data)
    (hivA : ':' ∉ ivA.data)
    (hR : cipherDec (cipherEnc (td.refresh_token.getD "")) =
      td.refresh_token.getD "")
    (hcR : ':' ∉ (cipherEnc (td.refresh_token.getD "")).data)
    (hivR : ':' ∉ ivR.data) :
    ((getToken (storeToken m cipherEnc ivA ivR userId td now) cipherDec
        userId).map TMTokenData.access_token) = some td.access_token ∧
    (jsTruthyStr td.refresh_token = true →
      ((getToken (storeToken m cipherEnc ivA ivR userId td now) cipherDec
          userId).map TMTokenData.refresh_token) = some td.refresh_token) ∧
    (jsTruthyStr td.refresh_token = false →
      ((getToken (storeToken m cipherEnc ivA ivR userId td now) cipherDec
          userId).map TMTokenData.refresh_token) = some none) ∧
    (∀ s iv, cipherDec (cipherEnc s) = s → ':' ∉ (cipherEnc s).data →
      ':' ∉ iv.data →
      tmDecrypt cipherDec (tmEncrypt cipherEnc iv s) = s) := by
  have hget : memoryTokenRetrieve (storeToken m cipherEnc ivA ivR userId td now)
      userId =
      some (let td1 :=
              if jsTruthyNat td.expires_in then
                { td with expires_at := some (now + td.expires_in.getD 0 * 1000) }
              else td
            { td1 with
              access_token := tmEncrypt cipherEnc ivA td1.access_token
              refresh_token :=
                if jsTruthyStr td1.refresh_token then
                  some (tmEncrypt cipherEnc ivR (td1.refresh_token.getD ""))
                else none
              created_at := now }) := by
    unfold storeToken memoryTokenStore memoryTokenRetrieve
    exact mapGet_mapSet_self _ _ _
  refine ⟨?_, ?_, ?_, ?_⟩
  · unfold getToken
    rw [hget]
    cases hexp : jsTruthyNat td.expires_in <;>
      simp [hexp, tmDecrypt_tmEncrypt cipherEnc cipherDec ivA td.access_token
        hA hivA hcA]
  · intro href
    unfold getToken
    rw [hget]
    cases hrt : td.refresh_token with
    | none => rw [hrt] at href; cases href
    | some r =>
      have hr : r ≠ "" := by
        rw [hrt] at href; simpa [jsTruthyStr] using href
      have henc : jsTruthyStr (some (tmEncrypt cipherEnc ivR
          ((some r : Option String).getD ""))) = true := by
        simp [jsTruthyStr, tmEncrypt_ne_empty]
      have hdec : tmDecrypt cipherDec (tmEncrypt cipherEnc ivR r) = r := by
        have := tmDecrypt_tmEncrypt cipherEnc cipherDec ivR
          (td.refresh_token.getD "") (by rw [hrt] at hR ⊢; exact hR)
          hivR (by rw [hrt] at hcR ⊢; exact hcR)
        rw [hrt] at this
        simpa using this
      cases hexp : jsTruthyNat td.expires_in <;>
        simp [hexp, hrt, jsTruthyStr, hr, tmEncrypt_ne_empty, hdec]
  · intro href
    unfold getToken
    rw [hget]
    cases hexp : jsTruthyNat td.expires_in <;>
      cases hrt : td.refresh_token with
      | none => simp [hexp, hrt, jsTruthyStr]
      | some r =>
        rw [hrt] at href
        simp only [jsTruthyStr] at href
        simp at href
        simp [hexp, hrt, jsTruthyStr, href]
  · intro s iv h1 h2 h3
    exact tmDecrypt_tmEncrypt cipherEnc cipherDec iv s h1 h3 h2

/-- Witness for the amended C6: identity cipher, nonempty tokens. -/
theorem spec_C6_token_roundtrip_witness :
    ((getToken
        (storeToken ([] : List (String × TMTokenData)) (fun s => s) "aa" "bb" "u"
          { access_token := "tokA", token_type := "Bearer", expires_in := some 60
            refresh_token := some "tokR", scope := none, expires_at := none
            user_id := none, created_at := 0 } 1000)
        (fun s => s) "u").map TMTokenData.access_token) = some "tokA" ∧
    ((getToken
        (storeToken ([] : List (String × TMTokenData)) (fun s => s) "aa" "bb" "u"
          { access_token := "tokA", token_type := "Bearer", expires_in := some 60
            refresh_token := some "tokR", scope := none, expires_at := none
            user_id := none, created_at := 0 } 1000)
        (fun s => s) "u").map TMTokenData.refresh_token) = some (some "tokR") := by
  have h := spec_C6_token_roundtrip ([] : List (String × TMTokenData))
    (fun s => s) (fun s => s) "aa" "bb" "u"
    { access_token := "tokA", token_type := "Bearer", expires_in := some 60
      refresh_token := some "tokR", scope := none, expires_at := none
      user_id := none, created_at := 0 } 1000
    (by decide) (by decide) (by decide) (by decide) (by decide) (by decide)
  exact ⟨h.1, h.2.1 (by decide)⟩

/-! ## Bearer-token matching lemmas -/

theorem bearerRest_ws_append (ws : List Char) (t : Char) (ts : List Char)
    (hws : ws ≠ []) (hwsall : ∀ c ∈ ws, jsWsChar c = true)
    (ht : jsWsChar t = false) (htokall : (t :: ts).all jsDotChar = true) :
    bearerRest (ws ++ t :: ts) = some (t :: ts) := by
  induction ws with
  | nil => cases hws rfl
  | cons w ws' ih =>
    have hw : jsWsChar w = true := hwsall w (List.mem_cons_self _ _)
    cases ws' with
    | nil =>
      simp [bearerRest, hw, ht, htokall]
    | cons w2 ws'' =>
      have ih' := ih (by simp)
        (fun c hc => hwsall c (List.mem_cons_of_mem _ hc))
      show (if jsWsChar w = true then
          match bearerRest ((w2 :: ws'') ++ t :: ts) with
          | some r => some r
          | none =>
            if (w2 :: ws'') ++ t :: ts ≠ [] ∧
                ((w2 :: ws'') ++ t :: ts).all jsDotChar = true then
              some ((w2 :: ws'') ++ t :: ts)
            else none
        else none) = some (t :: ts)
      rw [if_pos hw, ih']

theorem bearerToken_of_form (a : String) (b6 ws : List Char) (t : Char)
    (ts : List Char)
    (hdata : a.data = b6 ++ (ws ++ t :: ts))
    (hmap : b6.map Char.toLower = "bearer".data)
    (hws : ws ≠ []) (hwsall : ∀ c ∈ ws, jsWsChar c = true)
    (ht : jsWsChar t = false) (htokall : (t :: ts).all jsDotChar = true) :
    bearerToken a = some (String.mk (t :: ts)) := by
  have hb6 : b6.length = 6 := by
    have := congrArg List.length hmap
    simpa using this
  unfold bearerToken
  rw [hdata, List.take_left' hb6, List.drop_left' hb6, hmap,
    bearerRest_ws_append ws t ts hws hwsall ht htokall]
  simp

/-- Claim C9: when no access token is extractable from the headers
(none of the `authorization` / `Authorization` / `x-access-token` /
`X-Access-Token` headers is truthy), `withClient` throws
"No access token provided in headers" without invoking its callback;
when a truthy authorization header of the form `Bearer <token>`
(case-insensitive literal, any nonempty whitespace run) is present, the
callback receives exactly `<token>`; any other truthy authorization
header is passed to the callback verbatim. -/
theorem spec_C9_withClient_token_extraction {α : Type} (headers : HeadersMap)
    (callback : String → α) :
    (extractAccessToken headers = none →
      withClient headers callback =
        (.error "No access token provided in headers", false)) ∧
    (jsTruthyStr (mapGet headers "authorization") = false ∧
      jsTruthyStr (mapGet headers "Authorization") = false ∧
      jsTruthyStr (mapGet headers "x-access-token") = false ∧
      jsTruthyStr (mapGet headers "X-Access-Token") = false →
      extractAccessToken headers = none) ∧
    (∀ a, jsOrOptStr (mapGet headers "authorization")
        (mapGet headers "Authorization") = some a →
      (∀ b6 ws t ts, a.data = b6 ++ (ws ++ t :: ts) →
        b6.map Char.toLower = "bearer".data →
        ws ≠ [] → (∀ c ∈ ws, jsWsChar c = true) →
        jsWsChar t = false → (t :: ts).all jsDotChar = true →
        withClient headers callback =
          (.ok (callback (String.mk (t :: ts))), true)) ∧
      (bearerToken a = none →
        withClient headers callback = (.ok (callback a), true))) := by
  refine ⟨?_, ?_, ?_⟩
  · intro h
    unfold withClient
    rw [h]
  · intro ⟨h1, h2, h3, h4⟩
    unfold extractAccessToken
    simp [jsOrOptStr, h1, h2, h3, h4]
  · intro a ha
    have hat : a ≠ "" := by
      intro he
      rw [he] at ha
      unfold jsOrOptStr at ha
      by_cases hx : jsTruthyStr (mapGet headers "authorization") = true
      · rw [if_pos hx] at ha
        rw [ha] at hx
        simp [jsTruthyStr] at hx
      · rw [if_neg hx] at ha
        by_cases hy : jsTruthyStr (mapGet headers "Authorization") = true
        · rw [if_pos hy] at ha
          rw [ha] at hy
          simp [jsTruthyStr] at hy
        · rw [if_neg hy] at ha
          cases ha
    constructor
    · intro b6 ws t ts hdata hmap hws hwsall ht htokall
      have hbt := bearerToken_of_form a b6 ws t ts hdata hmap hws hwsall ht htokall
      have hex : extractAccessToken headers = some (String.mk (t :: ts)) := by
        unfold extractAccessToken
        rw [ha]
        show (match bearerToken a with
          | some tok => some tok
          | none => some a) = some (String.mk (t :: ts))
        rw [hbt]
      unfold withClient
      rw [hex]
      have : ¬ String.mk (t :: ts) = "" := by
        intro he
        have := congrArg String.data he
        simp at this
      simp [this]
    · intro hbt
      have hex : extractAccessToken headers = some a := by
        unfold extractAccessToken
        rw [ha]
        show (match bearerToken a with
          | some tok => some tok
          | none => some a) = some a
        rw [hbt]
      unfold withClient
      rw [hex]
      simp [hat]

/-- Witness for C9: empty headers throw without invoking the callback; a
Bearer header yields the stripped token; a raw token header is passed
through. -/
theorem spec_C9_withClient_token_extraction_witness :
    withClient ([] : HeadersMap) (fun t => t) =
      (.error "No access token provided in headers", false) ∧
    withClient [("authorization", "Bearer abc123")] (fun t => t) =
      (.ok "abc123", true) ∧
    withClient [("Authorization", "rawToken99")] (fun t => t) =
      (.ok "rawToken99", true) := by
  refine ⟨?_, ?_, ?_⟩
  · exact (spec_C9_withClient_token_extraction ([] : HeadersMap)
      (fun t => t)).1 (by decide)
  · have h := ((spec_C9_withClient_token_extraction
      [("authorization", "Bearer abc123")] (fun t => t)).2.2
      "Bearer abc123" (by decide)).1
      "Bearer".data [' '] 'a' "bc123".data (by decide) (by decide)
      (by decide) (by decide) (by decide) (by decide)
    simpa using h
  · exact ((spec_C9_withClient_token_extraction
      [("Authorization", "rawToken99")] (fun t => t)).2.2
      "rawToken99" (by decide)).2 (by decide)

/-! ## Tool factory envelope -/

/-- Claim C5: every invocation of a tool registered through
`ToolFactory.registerTool` yields an envelope with exactly one text
content item whose JSON is either a success object (success true, no
error key, no `isError` flag) or an error object (success false, an
error string, no data and no message keys, `isError: true`); and a
handler exception is caught and turned into the error envelope rather
than propagated. -/
theorem spec_C5_tool_envelope {α β : Type}
    (name description : String)
    (handler : α → ToolContext → Except (Option String) (ToolResponse β))
    (args : α) :
    (registerToolWrapper name description handler args).content.length = 1 ∧
    (∀ item ∈ (registerToolWrapper name description handler args).content,
      item.ctype = "text" ∧
      ((item.payload.success = true ∧ item.payload.error = none ∧
        (registerToolWrapper name description handler args).isError = none) ∨
       (item.payload.success = false ∧ (∃ e, item.payload.error = some e) ∧
        item.payload.data = none ∧ item.payload.message = none ∧
        (registerToolWrapper name description handler args).isError = some true))) ∧
    (∀ e, handler args ⟨name, some description⟩ = .error e →
      registerToolWrapper name description handler args =
        formatErrorResponse (jsErrMsg e)) := by
  cases hh : handler args ⟨name, some description⟩ with
  | error e =>
    have hred : registerToolWrapper name description handler args =
        formatErrorResponse (jsErrMsg e) := by
      unfold registerToolWrapper; rw [hh]
    refine ⟨by rw [hred]; rfl, ?_, ?_⟩
    · intro item hitem
      rw [hred] at hitem
      simp only [formatErrorResponse, List.mem_singleton] at hitem
      subst hitem
      exact ⟨rfl, Or.inr ⟨rfl, ⟨jsErrMsg e, rfl⟩, rfl, rfl, by rw [hred]; rfl⟩⟩
    · intro e' he'
      cases he'
      exact hred
  | ok r =>
    cases hs : r.success with
    | true =>
      have hred : registerToolWrapper name description handler args =
          formatSuccessResponse r := by
        unfold registerToolWrapper; rw [hh]; simp [hs]
      refine ⟨by rw [hred]; rfl, ?_, ?_⟩
      · intro item hitem
        rw [hred] at hitem
        simp only [formatSuccessResponse, List.mem_singleton] at hitem
        subst hitem
        exact ⟨rfl, Or.inl ⟨rfl, rfl, by rw [hred]; rfl⟩⟩
      · intro e' he'
        cases he'
    | false =>
      have hred : registerToolWrapper name description handler args =
          formatErrorResponse (jsOrStr r.error "Unknown error occurred") := by
        unfold registerToolWrapper; rw [hh]; simp [hs]
      refine ⟨by rw [hred]; rfl, ?_, ?_⟩
      · intro item hitem
        rw [hred] at hitem
        simp only [formatErrorResponse, List.mem_singleton] at hitem
        subst hitem
        exact ⟨rfl, Or.inr ⟨rfl, ⟨_, rfl⟩, rfl, rfl, by rw [hred]; rfl⟩⟩
      · intro e' he'
        cases he'

/-- Witness for C5: a throwing handler is turned into the error
envelope, and a succeeding handler yields a single-item envelope. -/
theorem spec_C5_tool_envelope_witness :
    registerToolWrapper "t" "d"
      (fun (_ : Unit) (_ : ToolContext) =>
        (.error (some "boom") : Except (Option String) (ToolResponse Unit))) ()
      = formatErrorResponse "boom" ∧
    (registerToolWrapper "t" "d"
      (fun (_ : Unit) (_ : ToolContext) =>
        (.ok { success := true, data := some () } :
          Except (Option String) (ToolResponse Unit))) ()).content.length = 1 := by
  constructor
  · exact (spec_C5_tool_envelope "t" "d"
      (fun (_ : Unit) (_ : ToolContext) =>
        (.error (some "boom") : Except (Option String) (ToolResponse Unit))) ()).2.2
      (some "boom") rfl
  · exact (spec_C5_tool_envelope "t" "d"
      (fun (_ : Unit) (_ : ToolContext) =>
        (.ok { success := true, data := some () } :
          Except (Option String) (ToolResponse Unit))) ()).1

/-! ## create_campaign budget validation -/

/-- Counterexample to claim C10 as stated: the validation uses JavaScript
truthiness, so with `daily_budget: 0` and `lifetime_budget: 1000` both
budget parameters are provided, yet `daily_budget && lifetime_budget` is
falsy and `!daily_budget && !lifetime_budget` is falsy too, so the
handler does call `createCampaign` instead of returning an error. -/
theorem spec_C10_counterexample :
    ({ account_id := "act_1", name := "n", objective := "OUTCOME_TRAFFIC"
       status := none, daily_budget := some 0, lifetime_budget := some 1000
       start_time := none, stop_time := none, special_ad_categories := none
       bid_strategy := none, bid_cap := none, budget_optimization := none
       : CreateCampaignArgs }).daily_budget ≠ none ∧
    ({ account_id := "act_1", name := "n", objective := "OUTCOME_TRAFFIC"
       status := none, daily_budget := some 0, lifetime_budget := some 1000
       start_time := none, stop_time := none, special_ad_categories := none
       bid_strategy := none, bid_cap := none, budget_optimization := none
       : CreateCampaignArgs }).lifetime_budget ≠ none ∧
    (createCampaignHandler (fun _ => "c1")
      { account_id := "act_1", name := "n", objective := "OUTCOME_TRAFFIC"
        status := none, daily_budget := some 0, lifetime_budget := some 1000
        start_time := none, stop_time := none, special_ad_categories := none
        bid_strategy := none, bid_cap := none,
        budget_optimization := none }).2 ≠ [] ∧
    (createCampaignHandler (fun _ => "c1")
      { account_id := "act_1", name := "n", objective := "OUTCOME_TRAFFIC"
        status := none, daily_budget := some 0, lifetime_budget := some 1000
        start_time := none, stop_time := none, special_ad_categories := none
        bid_strategy := none, bid_cap := none,
        budget_optimization := none }).1.success = true := by
  exact ⟨by decide, by decide, by decide, by decide⟩

/-- Claim C10, amended for truthiness: with both budgets provided and
nonzero, or neither provided nonzero, the tool returns an error response
and makes no `createCampaign` call; with exactly one nonzero budget the
single API call carries status `PAUSED` whenever the status parameter is
omitted. -/
theorem spec_C10_create_campaign_budget_validation
    (api : CampaignData → String) (a : CreateCampaignArgs) :
    (jsTruthyInt a.daily_budget = true ∧ jsTruthyInt a.lifetime_budget = true →
      (createCampaignHandler api a).1.success = false ∧
      (createCampaignHandler api a).1.error =
        some "Cannot specify both daily_budget and lifetime_budget. Choose one budget type." ∧
      (createCampaignHandler api a).2 = []) ∧
    (jsTruthyInt a.daily_budget = false ∧ jsTruthyInt a.lifetime_budget = false →
      (createCampaignHandler api a).1.success = false ∧
      (createCampaignHandler api a).1.error =
        some "Must specify either daily_budget or lifetime_budget." ∧
      (createCampaignHandler api a).2 = []) ∧
    (jsTruthyInt a.daily_budget ≠ jsTruthyInt a.lifetime_budget →
      (createCampaignHandler api a).1.success = true ∧
      (createCampaignHandler api a).2 = [buildCampaignData a] ∧
      (a.status = none → (buildCampaignData a).status = "PAUSED")) := by
  refine ⟨?_, ?_, ?_⟩
  · intro ⟨hd, hl⟩
    refine ⟨?_, ?_, ?_⟩ <;> simp [createCampaignHandler, hd, hl]
  · intro ⟨hd, hl⟩
    refine ⟨?_, ?_, ?_⟩ <;> simp [createCampaignHandler, hd, hl]
  · intro hne
    have hcalls : (createCampaignHandler api a).1.success = true ∧
        (createCampaignHandler api a).2 = [buildCampaignData a] := by
      cases hd : jsTruthyInt a.daily_budget <;>
        cases hl : jsTruthyInt a.lifetime_budget
      · rw [hd, hl] at hne; cases hne rfl
      · constructor <;> simp [createCampaignHandler, hd, hl]
      · constructor <;> simp [createCampaignHandler, hd, hl]
      · rw [hd, hl] at hne; cases hne rfl
    refine ⟨hcalls.1, hcalls.2, ?_⟩
    intro hst
    simp [buildCampaignData, hst, jsOrStr]

/-- Witness for the amended C10: both nonzero budgets rejected with no
call; a single daily budget accepted with status defaulted to PAUSED. -/
theorem spec_C10_create_campaign_budget_validation_witness :
    (createCampaignHandler (fun _ => "c1")
      { account_id := "act_1", name := "n", objective := "OUTCOME_TRAFFIC"
        status := none, daily_budget := some 100, lifetime_budget := some 200
        start_time := none, stop_time := none, special_ad_categories := none
        bid_strategy := none, bid_cap := none,
        budget_optimization := none }).2 = [] ∧
    (createCampaignHandler (fun _ => "c1")
      { account_id := "act_1", name := "n", objective := "OUTCOME_TRAFFIC"
        status := none, daily_budget := some 100, lifetime_budget := none
        start_time := none, stop_time := none, special_ad_categories := none
        bid_strategy := none, bid_cap := none,
        budget_optimization := none }).2 =
      [buildCampaignData
        { account_id := "act_1", name := "n", objective := "OUTCOME_TRAFFIC"
          status := none, daily_budget := some 100, lifetime_budget := none
          start_time := none, stop_time := none, special_ad_categories := none
          bid_strategy := none, bid_cap := none,
          budget_optimization := none }] ∧
    (buildCampaignData
      { account_id := "act_1", name := "n", objective := "OUTCOME_TRAFFIC"
        status := none, daily_budget := some 100, lifetime_budget := none
        start_time := none, stop_time := none, special_ad_categories := none
        bid_strategy := none, bid_cap := none,
        budget_optimization := none }).status = "PAUSED" := by
  refine ⟨?_, ?_, ?_⟩
  · exact ((spec_C10_create_campaign_budget_validation (fun _ => "c1")
      { account_id := "act_1", name := "n", objective := "OUTCOME_TRAFFIC"
        status := none, daily_budget := some 100, lifetime_budget := some 200
        start_time := none, stop_time := none, special_ad_categories := none
        bid_strategy := none, bid_cap := none,
        budget_optimization := none }).1 ⟨by decide, by decide⟩).2.2
  · exact ((spec_C10_create_campaign_budget_validation (fun _ => "c1")
      { account_id := "act_1", name := "n", objective := "OUTCOME_TRAFFIC"
        status := none, daily_budget := some 100, lifetime_budget := none
        start_time := none, stop_time := none, special_ad_categories := none
        bid_strategy := none, bid_cap := none,
        budget_optimization := none }).2.2 (by decide)).2.1
  · exact ((spec_C10_create_campaign_budget_validation (fun _ => "c1")
      { account_id := "act_1", name := "n", objective := "OUTCOME_TRAFFIC"
        status := none, daily_budget := some 100, lifetime_budget := none
        start_time := none, stop_time := none, special_ad_categories := none
        bid_strategy := none, bid_cap := none,
        budget_optimization := none }).2.2 (by decide)).2.2 rfl

/-! ## Retry and rate-limit theorems -/

/-- Claim C1: a 4xx response is surfaced to the caller after a single
attempt with no retry, while a 5xx response is retried (another attempt
runs on the remaining responses) after the first backoff delay, as long
as the attempt budget allows it. -/
theorem spec_C1_retry_5xx_surface_4xx {α : Type} (baseDelay maxAttempts : Nat)
    (r : HttpResponse α) (rest : List (HttpResponse α)) :
    (1 ≤ maxAttempts → 400 ≤ r.status → r.status < 500 →
      retryWithBackoff baseDelay maxAttempts (r :: rest) =
        ⟨.error r.status, 1, []⟩) ∧
    (2 ≤ maxAttempts → 500 ≤ r.status →
      retryWithBackoff baseDelay maxAttempts (r :: rest) =
        ⟨(retryAux baseDelay (maxAttempts - 1) 1 rest).result,
          (retryAux baseDelay (maxAttempts - 1) 1 rest).attempts + 1,
          baseDelay * 2 ^ 0 ::
            (retryAux baseDelay (maxAttempts - 1) 1 rest).delays⟩) := by
  constructor
  · intro h1 h400 h500
    have hnotok : ¬ (200 ≤ r.status ∧ r.status < 300) := by omega
    have hnot5 : ¬ 500 ≤ r.status := by omega
    cases maxAttempts with
    | zero => omega
    | succ k =>
      simp [retryWithBackoff, retryAux, handleResponse, hnotok, hnot5]
  · intro h2 h500
    have hnotok : ¬ (200 ≤ r.status ∧ r.status < 300) := by omega
    cases maxAttempts with
    | zero => omega
    | succ k =>
      cases k with
      | zero => omega
      | succ j =>
        simp [retryWithBackoff, retryAux, handleResponse, hnotok, h500]

/-- Witness for C1: a 404 is surfaced at once; a 500 followed by a 200
is retried and succeeds on the second attempt. -/
theorem spec_C1_retry_5xx_surface_4xx_witness :
    retryWithBackoff 1000 3 [({ status := 404, payload := 0 } : HttpResponse Nat)] =
      ⟨.error 404, 1, []⟩ ∧
    retryWithBackoff 1000 3
      [({ status := 500, payload := 0 } : HttpResponse Nat),
       { status := 200, payload := 7 }] =
      ⟨.ok 7, 2, [1000]⟩ := by
  constructor
  · exact (spec_C1_retry_5xx_surface_4xx 1000 3
      ({ status := 404, payload := 0 } : HttpResponse Nat) []).1
      (by decide) (by decide) (by decide)
  · have h := (spec_C1_retry_5xx_surface_4xx 1000 3
      ({ status := 500, payload := 0 } : HttpResponse Nat)
      [{ status := 200, payload := 7 }]).2 (by decide) (by decide)
    rw [h]
    have : retryAux 1000 2 1 [({ status := 200, payload := 7 } : HttpResponse Nat)] =
        ⟨.ok 7, 1, []⟩ := by
      simp [retryAux, handleResponse]
    rw [this]
    rfl

theorem makeRequest_head {α : Type} (endpoint method : String) (a : String)
    (isWriteCall : Bool) (rateOutcome : Except String Unit)
    (baseDelay maxAttempts : Nat) (responses : List (HttpResponse α))
    (ha : a ≠ "") :
    (makeRequest endpoint method (some a) isWriteCall rateOutcome baseDelay
      maxAttempts responses).2.head? = some (.rateCheck a isWriteCall) := by
  have ht : jsTruthyStr (some a) = true := by simp [jsTruthyStr, ha]
  unfold makeRequest
  cases rateOutcome <;> simp [ht]

/-- Claim C4: with a truthy account id, every run of `makeRequest` puts
the awaited rate-limit check (flagged with the callers write flag) in
front of every HTTP attempt; if the rate-limit check throws, no HTTP
attempt happens at all; and the POST and DELETE helpers delegate with
the write flag set. -/
theorem spec_C4_rate_limit_before_fetch {α : Type} (endpoint method : String)
    (a : String) (isWriteCall : Bool) (rateOutcome : Except String Unit)
    (baseDelay maxAttempts : Nat) (responses : List (HttpResponse α))
    (data : List (String × String)) (ha : a ≠ "") :
    ((makeRequest endpoint method (some a) isWriteCall rateOutcome baseDelay
        maxAttempts responses).2.head? = some (.rateCheck a isWriteCall)) ∧
    (∀ e ∈ (makeRequest endpoint method (some a) isWriteCall rateOutcome
        baseDelay maxAttempts responses).2.tail,
      e = ReqEvent.httpAttempt endpoint method) ∧
    (∀ msg, rateOutcome = Except.error msg →
      (makeRequest endpoint method (some a) isWriteCall rateOutcome baseDelay
          maxAttempts responses).2 = [.rateCheck a isWriteCall] ∧
      (makeRequest endpoint method (some a) isWriteCall rateOutcome baseDelay
          maxAttempts responses).1 = .error (.rateLimited msg)) ∧
    ((postData endpoint data (some a) rateOutcome baseDelay maxAttempts
        responses (α := α)).2.head? = some (.rateCheck a true)) ∧
    ((deleteResource endpoint (some a) rateOutcome baseDelay maxAttempts
        responses (α := α)).2.head? = some (.rateCheck a true)) := by
  have ht : jsTruthyStr (some a) = true := by simp [jsTruthyStr, ha]
  refine ⟨makeRequest_head endpoint method a isWriteCall rateOutcome baseDelay
      maxAttempts responses ha, ?_, ?_, ?_, ?_⟩
  · intro e he
    cases rateOutcome with
    | error msg => simp [makeRequest, ht] at he
    | ok u =>
      simp only [makeRequest, ht, if_true] at he
      simp at he
      exact he.2
  · intro msg hmsg
    subst hmsg
    constructor <;> simp [makeRequest, ht]
  · exact makeRequest_head endpoint "POST" a true rateOutcome baseDelay
      maxAttempts responses ha
  · exact makeRequest_head endpoint "DELETE" a true rateOutcome baseDelay
      maxAttempts responses ha

/-- Witness for C4 at concrete inputs. -/
theorem spec_C4_rate_limit_before_fetch_witness :
    (makeRequest "me/adaccounts" "GET" (some "act_1") false (.ok ()) 1000 3
      [({ status := 200, payload := 5 } : HttpResponse Nat)]).2.head? =
      some (.rateCheck "act_1" false) ∧
    (makeRequest "campaigns" "POST" (some "act_1") true (.error "limit") 1000 3
      ([] : List (HttpResponse Nat))).2 = [.rateCheck "act_1" true] := by
  constructor
  · exact (spec_C4_rate_limit_before_fetch "me/adaccounts" "GET" "act_1" false
      (.ok ()) 1000 3 [({ status := 200, payload := 5 } : HttpResponse Nat)]
      [] (by decide)).1
  · exact ((spec_C4_rate_limit_before_fetch "campaigns" "POST" "act_1" true
      (.error "limit") 1000 3 ([] : List (HttpResponse Nat)) []
      (by decide)).2.2.1 "limit" rfl).1
